import Mathlib

/-!
Verification of the query-construction core of `scripts/santasearch.py`
(the "Santa Search" Elasticsearch dispatcher).

The Python code is shallowly embedded: dictionaries become a JSON value
type `JVal`, the query builders (`nuclei_bldq`, `nmap_bldq`, `httpx_bldq`)
become pure Lean functions, the session initializer (`init_ESsession`),
index enumerator (`get_indexes`) and dispatcher (`init_sc`) become
functions over explicit inputs (HTTP status codes and response bodies are
passed in as parameters, since network I/O is the environment's reply),
returning a trace of attempted network calls together with either a fatal
exit record (modelling `sys.exit(-1)` after an `[ERROR]` print) or the
computed value.
-/

namespace SantaSearch

/-- JSON-like values, the shape of the Python dictionaries built by the
query builders.  Object fields are kept in insertion order. -/
inductive JVal where
  | str : String → JVal
  | num : Int → JVal
  | arr : List JVal → JVal
  | obj : List (String × JVal) → JVal

/-- An Elasticsearch range clause `{"range": {field: {"gte": gte, "lte": lte}}}`. -/
def rangeClause (field gte lte : String) : JVal :=
  .obj [("range", .obj [(field, .obj [("gte", .str gte), ("lte", .str lte)])])]

/-- An Elasticsearch match clause `{"match": {field: value}}`. -/
def matchClause (field value : String) : JVal :=
  .obj [("match", .obj [(field, .str value)])]

/-- An Elasticsearch existence clause `{"exists": {"field": field}}`. -/
def existsClause (field : String) : JVal :=
  .obj [("exists", .obj [("field", .str field)])]

/-- The `_dict` returned by each builder: the `_uri` key and the
`_search` key (the query body). -/
structure QueryDocument where
  uri : String
  search : JVal

/-- `nuclei_bldq(es_host, ip_addr, stime, etime, slimit)`.  The Python
`if ip_addr:` guard is string truthiness: the address match clause is
appended exactly when the address is present and non-empty. -/
def nuclei_bldq (es_host : String) (ip_addr : Option String) (stime etime : String)
    (slimit : Int) : QueryDocument :=
  let must : List JVal :=
    match ip_addr with
    | none => []
    | some v => if v = "" then [] else [matchClause "event.ip" v]
  { uri := es_host ++ "/nuclei/_search?filter_path=hits.hits._source"
    search := .obj [
      ("query", .obj [("bool", .obj [
        ("must", .arr must),
        ("filter", .arr [rangeClause "@timestamp" stime etime])])]),
      ("_source", .obj [("includes", .arr [
        .str "@timestamp", .str "event.ip", .str "event.info.severity",
        .str "event.info.name", .str "event.matched-at", .str "event.template-id",
        .str "event.info.classification.cvss-score", .str "event.info.description"])]),
      ("size", .num slimit)] }

/-- `nmap_bldq(es_host, ip_addr, stime, etime, slimit)`. -/
def nmap_bldq (es_host : String) (ip_addr : Option String) (stime etime : String)
    (slimit : Int) : QueryDocument :=
  let must : List JVal :=
    match ip_addr with
    | none => []
    | some v => if v = "" then [] else [matchClause "ip" v]
  { uri := es_host ++ "/nmap/_search?filter_path=hits.hits._source"
    search := .obj [
      ("query", .obj [("bool", .obj [
        ("must", .arr must),
        ("filter", .arr [rangeClause "time" stime etime])])]),
      ("_source", .obj [("includes", .arr [
        .str "time", .str "ip", .str "port", .str "protocol",
        .str "script", .str "script_output"])]),
      ("size", .num slimit)] }

/-- `httpx_bldq(es_host, ip_addr, stime, etime, slimit)`.  The `must`
array starts with the fixed `{"match": {"script": "httpx"}}` clause; the
address match, when the address is truthy, is appended after it. -/
def httpx_bldq (es_host : String) (ip_addr : Option String) (stime etime : String)
    (slimit : Int) : QueryDocument :=
  let must : List JVal :=
    match ip_addr with
    | none => [matchClause "script" "httpx"]
    | some v =>
        if v = "" then [matchClause "script" "httpx"]
        else [matchClause "script" "httpx", matchClause "ip" v]
  { uri := es_host ++ "/nmap/_search?filter_path=hits.hits._source"
    search := .obj [
      ("query", .obj [("bool", .obj [
        ("must", .arr must),
        ("filter", .arr [
          existsClause "script_output",
          rangeClause "time" stime etime])])]),
      ("_source", .obj [("includes", .arr [
        .str "time", .str "script", .str "script_output"])]),
      ("size", .num slimit)] }

/-- Look up a key in a JSON object (first occurrence), `none` otherwise. -/
def objGet (j : JVal) (k : String) : Option JVal :=
  match j with
  | .obj kvs =>
    match kvs.find? (fun p => p.1 == k) with
    | some p => some p.2
    | none => none
  | _ => none

/-- The `filter` array of a query document's boolean query. -/
def queryFilter (q : QueryDocument) : List JVal :=
  match objGet q.search "query" with
  | some qq =>
    match objGet qq "bool" with
    | some b =>
      match objGet b "filter" with
      | some (.arr l) => l
      | _ => []
    | _ => []
  | _ => []

/-- The `must` array of a query document's boolean query. -/
def queryMust (q : QueryDocument) : List JVal :=
  match objGet q.search "query" with
  | some qq =>
    match objGet qq "bool" with
    | some b =>
      match objGet b "must" with
      | some (.arr l) => l
      | _ => []
    | _ => []
  | _ => []

/-- The `_source.includes` projection list of a query document. -/
def sourceIncludes (q : QueryDocument) : List JVal :=
  match objGet q.search "_source" with
  | some s =>
    match objGet s "includes" with
    | some (.arr l) => l
    | _ => []
  | _ => []

/-- The `size` entry of a query document. -/
def querySize (q : QueryDocument) : Option JVal :=
  objGet q.search "size"

/-- Whether a JSON value is a range clause: an object whose single key is
`"range"`. -/
def isRangeClause : JVal → Bool
  | .obj [(k, _)] => k == "range"
  | _ => false

/-- UTF-8 encoding of one Unicode scalar value, as a list of byte values;
the byte-level meaning of Python's `str.encode()`. -/
def utf8EncodeChar (n : Nat) : List Nat :=
  if n < 128 then [n]
  else if n < 2048 then [192 + n / 64, 128 + n % 64]
  else if n < 65536 then [224 + n / 4096, 128 + (n / 64) % 64, 128 + n % 64]
  else [240 + n / 262144, 128 + (n / 4096) % 64, 128 + (n / 64) % 64, 128 + n % 64]

/-- The UTF-8 bytes of a string (Python `s.encode()`). -/
def strBytes (s : String) : List Nat :=
  (s.data.map (fun c => utf8EncodeChar c.toNat)).flatten

/-- The standard base64 alphabet. -/
def b64Alphabet : List Char :=
  "ABCDEFGHIJKLMNOPQRSTUVWXYZabcdefghijklmnopqrstuvwxyz0123456789+/".data

/-- The base64 digit for a 6-bit value. -/
def b64Char (n : Nat) : Char := b64Alphabet.getD n 'A'

/-- Standard base64 of a byte list, with `=` padding; the meaning of
Python's `base64.b64encode`. -/
def b64encodeBytes : List Nat → List Char
  | [] => []
  | [a] => [b64Char (a / 4), b64Char (a % 4 * 16), '=', '=']
  | [a, b] => [b64Char (a / 4), b64Char (a % 4 * 16 + b / 16), b64Char (b % 16 * 4), '=']
  | a :: b :: c :: rest =>
      b64Char (a / 4) :: b64Char (a % 4 * 16 + b / 16) ::
      b64Char (b % 16 * 4 + c / 64) :: b64Char (c % 64) :: b64encodeBytes rest

/-- `base64.b64encode(s.encode()).decode()`. -/
def b64encode (s : String) : String := String.mk (b64encodeBytes (strBytes s))

/-- One attempted network call: the liveness probe `session.get(api_URL)`
in `init_ESsession`, or the catalog listing `session.get(index_URI)` in
`get_indexes`, each carrying the requested URL. -/
inductive Event where
  | netProbe : String → Event
  | netCatalog : String → Event
deriving DecidableEq

/-- A fatal termination: the `[ERROR]` diagnostic printed and the process
exit status passed to `sys.exit`. -/
structure FatalExit where
  message : String
  exitCode : Int
deriving DecidableEq

/-- The `requests.Session` as far as this core configures it: its default
headers. -/
structure Session where
  headers : List (String × String)
deriving DecidableEq

/-- The diagnostic printed by both `init_ESsession` and `get_indexes` on a
non-200 response. -/
def connFailMsg (status : Nat) : String :=
  "[ERROR]: Connection failed, got " ++ toString status ++ " response!"

/-- The headers `init_ESsession` installs on the session: always the JSON
content type, and, when `user` is truthy (non-empty), a Basic
Authorization header built from `base64(user:passwd)`. -/
def sessionHeaders (user passwd : String) : List (String × String) :=
  let ctype := [("Content-Type", "application/json")]
  if user = "" then ctype
  else ctype ++ [("Authorization", "Basic " ++ b64encode (user ++ ":" ++ passwd))]

/-- `init_ESsession(user, passwd, api_URL, verbose)`: sets up headers,
issues the liveness probe (always attempted — the probe event is emitted
unconditionally), and on a non-200 reply prints the diagnostic naming the
status code and exits with -1, otherwise returns the session.
`probeStatus` is the environment's reply to the probe. -/
def init_ESsession (user passwd api_URL : String) (probeStatus : Nat) :
    List Event × Except FatalExit Session :=
  ([Event.netProbe api_URL],
    if probeStatus ≠ 200 then
      Except.error { message := connFailMsg probeStatus, exitCode := -1 }
    else
      Except.ok { headers := sessionHeaders user passwd })

/-- Python's `s.startswith('.')`: the string is non-empty and its first
character is `.`. -/
def startsWithDot (s : String) : Bool :=
  match s.data with
  | [] => false
  | c :: _ => c == '.'

/-- The accumulation loop of `get_indexes`: `index_arr = []`, then for
each entry, append it unless its name starts with `.`. -/
def get_indexes_go : List String → List String → List String
  | acc, [] => acc
  | acc, idx :: rest =>
      if startsWithDot idx then get_indexes_go acc rest
      else get_indexes_go (acc ++ [idx]) rest

/-- `get_indexes(es_session, es_host, verbose)`: issues the catalog
request, exits fatally on a non-200 reply, otherwise returns the index
names not starting with `.`.  `status` is the reply's status code and
`resp` the `index` fields of its JSON body, in response order. -/
def get_indexes (es_host : String) (status : Nat) (resp : List String) :
    List Event × Except FatalExit (List String) :=
  ([Event.netCatalog (es_host ++ "/_cat/indices?h=index&format=json")],
    if status ≠ 200 then
      Except.error { message := connFailMsg status, exitCode := -1 }
    else
      Except.ok (get_indexes_go [] resp))

/-- The fields of `conf` read by `init_sc`: `elasticsearch.{ssl, ip, port,
username, password}` flattened, and `tool_list`. -/
structure Config where
  ssl : Bool
  ip : String
  port : Nat
  username : String
  password : String
  tool_list : List String
deriving DecidableEq

/-- The argparse namespace consumed by `init_sc`; `configName` is
`args.config.name`, the path of the opened configuration file. -/
structure Args where
  configName : String
  addr : Option String
  start : String
  end_ : String
  limit : Int
  output : String
  tool : String
  verbose : Bool

/-- The `opts` dictionary `init_sc` returns.  The per-tool query
documents, stored in Python under the keys `opts['nmap']`,
`opts['httpx']`, `opts['nuclei']`, are gathered in `plan`, keyed by tool
name in insertion order. -/
structure ScOpts where
  verbose : Bool
  es_host : String
  es_user : String
  es_pass : String
  es_session : Session
  tool : String
  tool_list : List String
  plan : List (String × QueryDocument)
  oformat : String

/-- Python dict assignment `d[k] = v`: replace in place when the key
exists (keeping its position), append otherwise. -/
def dictInsert : List (String × QueryDocument) → String → QueryDocument →
    List (String × QueryDocument)
  | [], k, v => [(k, v)]
  | p :: rest, k, v =>
      if p.1 = k then (k, v) :: rest else p :: dictInsert rest k v

/-- Python dict lookup `d[k]` as an `Option`. -/
def dictLookup : List (String × QueryDocument) → String → Option QueryDocument
  | [], _ => none
  | p :: rest, k => if p.1 = k then some p.2 else dictLookup rest k

/-- The `for tool in opts['tool_list']` loop of `init_sc`: dispatch on the
tool name, assigning the builder's document under that name; names other
than `nmap`, `httpx`, `nuclei` fall through every branch and assign
nothing. -/
def build_plan (eh : String) (a : Option String) (s e : String) (lim : Int) :
    List String → List (String × QueryDocument) → List (String × QueryDocument)
  | [], acc => acc
  | t :: rest, acc =>
      if t = "nmap" then
        build_plan eh a s e lim rest (dictInsert acc "nmap" (nmap_bldq eh a s e lim))
      else if t = "httpx" then
        build_plan eh a s e lim rest (dictInsert acc "httpx" (httpx_bldq eh a s e lim))
      else if t = "nuclei" then
        build_plan eh a s e lim rest (dictInsert acc "nuclei" (nuclei_bldq eh a s e lim))
      else build_plan eh a s e lim rest acc

/-- The backend base URL built by `init_sc`: scheme from the `ssl` flag,
then `ip`, then `:port`. -/
def es_hostOf (conf : Config) : String :=
  (if conf.ssl then "https://" ++ conf.ip else "http://" ++ conf.ip)
    ++ ":" ++ toString conf.port

/-- The diagnostic `init_sc` prints for a tool name missing from
`tool_list`, naming the tool and the configuration file. -/
def unknownToolMsg (tool configName : String) : String :=
  "[ERROR]: Unknown tool: \"" ++ tool ++ "\", check " ++ configName

/-- `init_sc(args)`: builds the base URL, establishes the session (the
liveness probe — always attempted first), then validates the requested
tool name against `tool_list`, then builds one query document per
configured tool the loop recognizes.  `probeStatus` is the environment's
reply to the liveness probe.  Returns the attempted network calls and
either the fatal exit or the assembled options. -/
def init_sc (conf : Config) (args : Args) (probeStatus : Nat) :
    List Event × Except FatalExit ScOpts :=
  let es_host := es_hostOf conf
  let sres := init_ESsession conf.username conf.password es_host probeStatus
  match sres.2 with
  | Except.error e => (sres.1, Except.error e)
  | Except.ok sess =>
      if args.tool ≠ "all" ∧ args.tool ∉ conf.tool_list then
        (sres.1, Except.error
          { message := unknownToolMsg args.tool args.configName, exitCode := -1 })
      else
        (sres.1, Except.ok
          { verbose := args.verbose
            es_host := es_host
            es_user := conf.username
            es_pass := conf.password
            es_session := sess
            tool := args.tool
            tool_list := conf.tool_list
            plan := build_plan es_host args.addr args.start args.end_ args.limit
                      conf.tool_list []
            oformat := args.output })

/-- The builder `init_sc`'s loop dispatches to for a supported tool name
(one of `nmap`, `httpx`, `nuclei`). -/
def supportedBuilder (t eh : String) (a : Option String) (s e : String) (lim : Int) :
    QueryDocument :=
  if t = "nmap" then nmap_bldq eh a s e lim
  else if t = "httpx" then httpx_bldq eh a s e lim
  else nuclei_bldq eh a s e lim

/-- Observe the plan of a dispatcher outcome, `none` on a fatal exit. -/
def planOf (r : List Event × Except FatalExit ScOpts) :
    Option (List (String × QueryDocument)) :=
  match r.2 with
  | Except.ok o => some o.plan
  | Except.error _ => none

/-- A configuration enabling the three supported tools, no credentials. -/
def conf_c1 : Config :=
  { ssl := false, ip := "127.0.0.1", port := 9200, username := "", password := ""
    tool_list := ["nmap", "httpx", "nuclei"] }

/-- An invocation requesting the unconfigured tool `masscan`. -/
def args_c1 : Args :=
  { configName := "conf/santacruz.yml", addr := none, start := "now-24h", end_ := "now"
    limit := 100, output := "txt", tool := "masscan", verbose := false }

/-- A configuration whose enabled-tool set holds only the unsupported
name `masscan`. -/
def conf_c2 : Config :=
  { ssl := false, ip := "127.0.0.1", port := 9200, username := "", password := ""
    tool_list := ["masscan"] }

/-- An invocation requesting the sentinel `all`. -/
def args_c2 : Args :=
  { configName := "conf/santacruz.yml", addr := none, start := "now-24h", end_ := "now"
    limit := 100, output := "txt", tool := "all", verbose := false }

/-- A configuration enabling `nmap` and `nuclei`. -/
def conf_w2 : Config :=
  { ssl := false, ip := "127.0.0.1", port := 9200, username := "", password := ""
    tool_list := ["nmap", "nuclei"] }

/-- An invocation requesting the sentinel `all`, with an address. -/
def args_w2 : Args :=
  { configName := "conf/santacruz.yml", addr := some "10.0.0.5", start := "now-24h"
    end_ := "now", limit := 50, output := "txt", tool := "all", verbose := false }

/-! ### Sanity checks of the embedding on concrete inputs -/

example : queryFilter (nmap_bldq "h" none "a" "b" 7) = [rangeClause "time" "a" "b"] := rfl
example : queryMust (httpx_bldq "h" (some "1.2.3.4") "a" "b" 7)
    = [matchClause "script" "httpx", matchClause "ip" "1.2.3.4"] := rfl
example : querySize (nmap_bldq "h" none "a" "b" 7) = some (.num 7) := rfl
example : (queryFilter (httpx_bldq "h" none "a" "b" 7)).filter isRangeClause
    = [rangeClause "time" "a" "b"] := rfl
example : b64encode "elastic:changeme" = "ZWxhc3RpYzpjaGFuZ2VtZQ==" := rfl
example : startsWithDot ".kibana" = true := rfl
example : startsWithDot "nmap" = false := rfl
example : startsWithDot "" = false := rfl
example : (get_indexes "h" 200 [".kibana", "nmap", ".security", "nuclei"]).2
    = Except.ok ["nmap", "nuclei"] := rfl

/-! ### Helper lemmas: the plan dictionary -/

lemma dictLookup_dictInsert_self (d : List (String × QueryDocument)) (k : String)
    (v : QueryDocument) : dictLookup (dictInsert d k v) k = some v := by
  induction d with
  | nil => simp [dictInsert, dictLookup]
  | cons p rest ih =>
      by_cases h : p.1 = k
      · simp [dictInsert, dictLookup, h]
      · simp [dictInsert, dictLookup, h, ih]

lemma dictLookup_dictInsert_ne (d : List (String × QueryDocument)) (k : String)
    (v : QueryDocument) (t : String) (h : k ≠ t) :
    dictLookup (dictInsert d k v) t = dictLookup d t := by
  induction d with
  | nil => simp [dictInsert, dictLookup, h]
  | cons p rest ih =>
      by_cases hp : p.1 = k
      · simp [dictInsert, dictLookup, hp, h]
      · simp [dictInsert, dictLookup, hp, ih]

lemma mem_keys_dictInsert (d : List (String × QueryDocument)) (k : String)
    (v : QueryDocument) (x : String) :
    x ∈ (dictInsert d k v).map Prod.fst ↔ x = k ∨ x ∈ d.map Prod.fst := by
  induction d with
  | nil => simp [dictInsert]
  | cons p rest ih =>
      by_cases hp : p.1 = k
      · rw [dictInsert, if_pos hp]
        simp only [List.map_cons, List.mem_cons, hp]
        tauto
      · rw [dictInsert, if_neg hp]
        simp only [List.map_cons, List.mem_cons, ih]
        tauto

lemma nodup_keys_dictInsert (d : List (String × QueryDocument)) (k : String)
    (v : QueryDocument) (h : (d.map Prod.fst).Nodup) :
    ((dictInsert d k v).map Prod.fst).Nodup := by
  induction d with
  | nil => simp [dictInsert]
  | cons p rest ih =>
      rw [List.map_cons, List.nodup_cons] at h
      by_cases hp : p.1 = k
      · simp only [dictInsert, if_pos hp, List.map_cons, List.nodup_cons]
        exact ⟨by rw [← hp]; exact h.1, h.2⟩
      · simp only [dictInsert, if_neg hp, List.map_cons, List.nodup_cons]
        refine ⟨?_, ih h.2⟩
        intro hmem
        rcases (mem_keys_dictInsert rest k v p.1).mp hmem with hk | hr
        · exact hp hk
        · exact h.1 hr

lemma build_plan_lookup (eh : String) (a : Option String) (s e : String) (lim : Int) :
    ∀ (l : List String) (acc : List (String × QueryDocument)) (t : String),
    dictLookup (build_plan eh a s e lim l acc) t =
      if (t = "nmap" ∨ t = "httpx" ∨ t = "nuclei") ∧ t ∈ l
      then some (supportedBuilder t eh a s e lim)
      else dictLookup acc t := by
  intro l
  induction l with
  | nil => intro acc t; simp [build_plan]
  | cons hd rest ih =>
      intro acc t
      by_cases h1 : hd = "nmap"
      · subst h1
        rw [build_plan, if_pos rfl, ih]
        by_cases ht : t = "nmap"
        · subst ht
          by_cases hmem : "nmap" ∈ rest <;>
            simp [hmem, dictLookup_dictInsert_self, supportedBuilder, List.mem_cons]
        · rw [dictLookup_dictInsert_ne _ _ _ _ (fun hk => ht hk.symm)]
          simp [List.mem_cons, ht]
      · by_cases h2 : hd = "httpx"
        · subst h2
          rw [build_plan, if_neg h1, if_pos rfl, ih]
          by_cases ht : t = "httpx"
          · subst ht
            by_cases hmem : "httpx" ∈ rest <;>
              simp [hmem, dictLookup_dictInsert_self, supportedBuilder, List.mem_cons]
          · rw [dictLookup_dictInsert_ne _ _ _ _ (fun hk => ht hk.symm)]
            simp [List.mem_cons, ht]
        · by_cases h3 : hd = "nuclei"
          · subst h3
            rw [build_plan, if_neg h1, if_neg h2, if_pos rfl, ih]
            by_cases ht : t = "nuclei"
            · subst ht
              by_cases hmem : "nuclei" ∈ rest <;>
                simp [hmem, dictLookup_dictInsert_self, supportedBuilder, List.mem_cons]
            · rw [dictLookup_dictInsert_ne _ _ _ _ (fun hk => ht hk.symm)]
              simp [List.mem_cons, ht]
          · rw [build_plan, if_neg h1, if_neg h2, if_neg h3, ih]
            by_cases hsupp : t = "nmap" ∨ t = "httpx" ∨ t = "nuclei"
            · have hne : t ≠ hd := by
                rintro rfl
                rcases hsupp with h | h | h
                · exact h1 h
                · exact h2 h
                · exact h3 h
              simp [List.mem_cons, hne]
            · simp [hsupp]

lemma build_plan_keys_nodup (eh : String) (a : Option String) (s e : String) (lim : Int) :
    ∀ (l : List String) (acc : List (String × QueryDocument)),
    (acc.map Prod.fst).Nodup → ((build_plan eh a s e lim l acc).map Prod.fst).Nodup := by
  intro l
  induction l with
  | nil => intro acc h; simpa [build_plan] using h
  | cons hd rest ih =>
      intro acc h
      by_cases h1 : hd = "nmap"
      · rw [build_plan, if_pos h1]
        exact ih _ (nodup_keys_dictInsert _ _ _ h)
      · by_cases h2 : hd = "httpx"
        · rw [build_plan, if_neg h1, if_pos h2]
          exact ih _ (nodup_keys_dictInsert _ _ _ h)
        · by_cases h3 : hd = "nuclei"
          · rw [build_plan, if_neg h1, if_neg h2, if_pos h3]
            exact ih _ (nodup_keys_dictInsert _ _ _ h)
          · rw [build_plan, if_neg h1, if_neg h2, if_neg h3]
            exact ih _ h

/-! ### Helper lemmas: the index enumerator -/

lemma get_indexes_go_eq_filter :
    ∀ (resp acc : List String),
    get_indexes_go acc resp = acc ++ resp.filter (fun x => !startsWithDot x) := by
  intro resp
  induction resp with
  | nil => intro acc; simp [get_indexes_go]
  | cons idx rest ih =>
      intro acc
      by_cases h : startsWithDot idx
      · simp [get_indexes_go, h, ih, List.filter_cons]
      · simp [get_indexes_go, h, ih, List.filter_cons]

/-! ### The claims -/

/-- C3: for every tool's builder and all inputs, the query body's filter
array contains exactly one range clause, that clause references the
tool's own timestamp field name (`@timestamp` for nuclei, `time` for nmap
and httpx), and its gte/lte values equal the supplied start and end time
strings verbatim. -/
theorem c3_filter_single_range_clause (eh : String) (a : Option String)
    (s e : String) (lim : Int) :
    (queryFilter (nuclei_bldq eh a s e lim)).filter isRangeClause
        = [rangeClause "@timestamp" s e]
    ∧ (queryFilter (nmap_bldq eh a s e lim)).filter isRangeClause
        = [rangeClause "time" s e]
    ∧ (queryFilter (httpx_bldq eh a s e lim)).filter isRangeClause
        = [rangeClause "time" s e] :=
  ⟨rfl, rfl, rfl⟩

/-- C4: supplying a non-empty target address yields a must array holding
a match clause on that tool's address field with exactly the supplied
value; an absent or empty address leaves the must array as initialized
(empty, except httpx's unconditional discriminator clause). -/
theorem c4_address_match_clause (eh s e : String) (lim : Int) :
    (∀ v : String, v ≠ "" →
        queryMust (nuclei_bldq eh (some v) s e lim) = [matchClause "event.ip" v]
        ∧ queryMust (nmap_bldq eh (some v) s e lim) = [matchClause "ip" v]
        ∧ queryMust (httpx_bldq eh (some v) s e lim)
            = [matchClause "script" "httpx", matchClause "ip" v])
    ∧ (∀ a : Option String, a = none ∨ a = some "" →
        queryMust (nuclei_bldq eh a s e lim) = []
        ∧ queryMust (nmap_bldq eh a s e lim) = []
        ∧ queryMust (httpx_bldq eh a s e lim) = [matchClause "script" "httpx"]) := by
  constructor
  · intro v hv
    refine ⟨?_, ?_, ?_⟩ <;>
      simp [queryMust, objGet, nuclei_bldq, nmap_bldq, httpx_bldq, hv]
  · rintro a (rfl | rfl) <;> exact ⟨rfl, rfl, rfl⟩

/-- C4 witness: the property at address `10.9.8.7`. -/
theorem c4_witness :
    queryMust (nuclei_bldq "http://127.0.0.1:9200" (some "10.9.8.7") "now-24h" "now" 100)
        = [matchClause "event.ip" "10.9.8.7"]
    ∧ queryMust (nmap_bldq "http://127.0.0.1:9200" (some "10.9.8.7") "now-24h" "now" 100)
        = [matchClause "ip" "10.9.8.7"]
    ∧ queryMust (httpx_bldq "http://127.0.0.1:9200" (some "10.9.8.7") "now-24h" "now" 100)
        = [matchClause "script" "httpx", matchClause "ip" "10.9.8.7"] :=
  (c4_address_match_clause "http://127.0.0.1:9200" "now-24h" "now" 100).1
    "10.9.8.7" (by decide)

/-- C5: the nmap builder on address absent, start `now-24h`, end `now`,
limit 100: filter is the single time range clause, must is empty, the
source projection is the six nmap fields, and size is 100. -/
theorem c5_nmap_scenario_a (eh : String) :
    queryFilter (nmap_bldq eh none "now-24h" "now" 100)
        = [rangeClause "time" "now-24h" "now"]
    ∧ queryMust (nmap_bldq eh none "now-24h" "now" 100) = []
    ∧ sourceIncludes (nmap_bldq eh none "now-24h" "now" 100)
        = [.str "time", .str "ip", .str "port", .str "protocol",
           .str "script", .str "script_output"]
    ∧ querySize (nmap_bldq eh none "now-24h" "now" 100) = some (.num 100) :=
  ⟨rfl, rfl, rfl, rfl⟩

/-- C6: the httpx builder on address `10.0.0.5`: must is the fixed
discriminator clause followed by the address match, in that order, and
the filter array holds both the existence clause on `script_output` and
the time range clause. -/
theorem c6_httpx_scenario_b (eh s e : String) (lim : Int) :
    queryMust (httpx_bldq eh (some "10.0.0.5") s e lim)
        = [matchClause "script" "httpx", matchClause "ip" "10.0.0.5"]
    ∧ queryFilter (httpx_bldq eh (some "10.0.0.5") s e lim)
        = [existsClause "script_output", rangeClause "time" s e] :=
  ⟨rfl, rfl⟩

/-- C7: every builder is deterministic: two calls with componentwise
identical arguments produce identical query documents; in this embedding
the builders are functions of their five arguments alone, with no clock,
random, or shared mutable state. -/
theorem c7_builders_deterministic (eh₁ eh₂ : String) (a₁ a₂ : Option String)
    (s₁ s₂ e₁ e₂ : String) (l₁ l₂ : Int)
    (hh : eh₁ = eh₂) (ha : a₁ = a₂) (hs : s₁ = s₂) (he : e₁ = e₂) (hl : l₁ = l₂) :
    nuclei_bldq eh₁ a₁ s₁ e₁ l₁ = nuclei_bldq eh₂ a₂ s₂ e₂ l₂
    ∧ nmap_bldq eh₁ a₁ s₁ e₁ l₁ = nmap_bldq eh₂ a₂ s₂ e₂ l₂
    ∧ httpx_bldq eh₁ a₁ s₁ e₁ l₁ = httpx_bldq eh₂ a₂ s₂ e₂ l₂ := by
  subst hh ha hs he hl
  exact ⟨rfl, rfl, rfl⟩

/-- C7 witness: the property at one concrete argument tuple. -/
theorem c7_witness :
    nuclei_bldq "http://127.0.0.1:9200" (some "10.0.0.5") "now-24h" "now" 100
        = nuclei_bldq "http://127.0.0.1:9200" (some "10.0.0.5") "now-24h" "now" 100
    ∧ nmap_bldq "http://127.0.0.1:9200" (some "10.0.0.5") "now-24h" "now" 100
        = nmap_bldq "http://127.0.0.1:9200" (some "10.0.0.5") "now-24h" "now" 100
    ∧ httpx_bldq "http://127.0.0.1:9200" (some "10.0.0.5") "now-24h" "now" 100
        = httpx_bldq "http://127.0.0.1:9200" (some "10.0.0.5") "now-24h" "now" 100 :=
  c7_builders_deterministic "http://127.0.0.1:9200" "http://127.0.0.1:9200"
    (some "10.0.0.5") (some "10.0.0.5") "now-24h" "now-24h" "now" "now" 100 100
    rfl rfl rfl rfl rfl

/-- C8: whenever the index enumerator returns a sequence, no name in it
starts with the reserved internal-index prefix `.`: every such name in
the backend's catalog response is filtered out. -/
theorem c8_no_internal_indices (eh : String) (st : Nat) (resp out : List String)
    (h : (get_indexes eh st resp).2 = Except.ok out) :
    out.all (fun x => !startsWithDot x) = true := by
  unfold get_indexes at h
  by_cases hst : st = 200
  · subst hst
    simp only [ne_eq, not_true_eq_false, if_false, Except.ok.injEq] at h
    subst h
    rw [get_indexes_go_eq_filter]
    simp only [List.nil_append, List.all_eq_true]
    intro x hx
    exact (List.mem_filter.mp hx).2
  · simp [hst] at h

/-- C8 witness: the enumerator on a response holding `.kibana` and `nmap`
returns only `nmap`, which does not start with `.`. -/
theorem c8_witness :
    (get_indexes "http://127.0.0.1:9200" 200 [".kibana", "nmap"]).2 = Except.ok ["nmap"]
    ∧ (["nmap"] : List String).all (fun x => !startsWithDot x) = true :=
  ⟨rfl, c8_no_internal_indices "http://127.0.0.1:9200" 200 [".kibana", "nmap"] ["nmap"] rfl⟩

/-- C10: the index enumerator preserves the backend's response order: on
a 200 catalog reply the returned sequence is exactly the subsequence of
the response's index names (in response order, duplicates included) whose
names do not start with `.`. -/
theorem c10_index_order_preserved (eh : String) (resp : List String) :
    (get_indexes eh 200 resp).2
      = Except.ok (resp.filter (fun x => !startsWithDot x)) := by
  simp [get_indexes, get_indexes_go_eq_filter]

/-- C9: the session manager always issues the liveness probe; on any
non-200 reply it exits fatally with exit code -1 (non-zero) and the
diagnostic naming the received status code, and the dispatcher then
attempts no further network call (the trace stays at the single probe)
and builds no query plan; on a 200 reply it returns the session whose
headers always hold the JSON content type and, when the username is
non-empty, the Basic Authorization header derived from
`username:password`. -/
theorem c9_session_probe (user passwd url : String) (st : Nat) :
    (st ≠ 200 →
        init_ESsession user passwd url st
          = ([Event.netProbe url],
             Except.error { message := connFailMsg st, exitCode := -1 })
        ∧ ({ message := connFailMsg st, exitCode := -1 } : FatalExit).exitCode ≠ 0
        ∧ ∀ (conf : Config) (args : Args),
            init_sc conf args st
              = ([Event.netProbe (es_hostOf conf)],
                 Except.error { message := connFailMsg st, exitCode := -1 }))
    ∧ (st = 200 →
        init_ESsession user passwd url st
          = ([Event.netProbe url], Except.ok { headers := sessionHeaders user passwd })
        ∧ ("Content-Type", "application/json") ∈ sessionHeaders user passwd
        ∧ (user ≠ "" →
            ("Authorization", "Basic " ++ b64encode (user ++ ":" ++ passwd))
              ∈ sessionHeaders user passwd)) := by
  constructor
  · intro hst
    refine ⟨by simp [init_ESsession, hst], by simp, ?_⟩
    intro conf args
    simp [init_sc, init_ESsession, hst]
  · intro hst
    subst hst
    refine ⟨by simp [init_ESsession], ?_, ?_⟩
    · by_cases hu : user = "" <;> simp [sessionHeaders, hu]
    · intro hu
      simp [sessionHeaders, hu]

/-- C9 witness: a 503 probe reply on concrete credentials and URL, and
the Authorization header for the non-empty username `elastic`. -/
theorem c9_witness :
    init_ESsession "elastic" "changeme" "http://127.0.0.1:9200" 503
      = ([Event.netProbe "http://127.0.0.1:9200"],
         Except.error { message := connFailMsg 503, exitCode := -1 })
    ∧ ("Authorization", "Basic " ++ b64encode ("elastic" ++ ":" ++ "changeme"))
        ∈ sessionHeaders "elastic" "changeme" :=
  ⟨((c9_session_probe "elastic" "changeme" "http://127.0.0.1:9200" 503).1
      (by decide)).1,
   ((c9_session_probe "elastic" "changeme" "http://127.0.0.1:9200" 200).2 rfl).2.2
      (by decide)⟩

/-- C1 counterexample: requesting the unconfigured tool `masscan` does
produce the fatal configuration error with exit code -1, but the network
trace at that point is the non-empty `[netProbe ...]`: the session
liveness probe was attempted before the validation failure, refuting the
claim's "no network call is attempted before that failure". -/
theorem c1_counterexample :
    init_sc conf_c1 args_c1 200
      = ([Event.netProbe "http://127.0.0.1:9200"],
         Except.error
           { message := "[ERROR]: Unknown tool: \"masscan\", check conf/santacruz.yml"
             exitCode := -1 })
    ∧ ([Event.netProbe "http://127.0.0.1:9200"] : List Event) ≠ [] :=
  ⟨rfl, by simp⟩

/-- C1 amended: if a specific tool (not `all`) is requested and is not in
the enabled-tool set, and the liveness probe returned 200, the dispatcher
fails fatally with the error naming the tool and the configuration
source and a non-zero exit status, and no query plan is built — but the
session liveness probe network call has already been attempted before
this failure (the trace is exactly that one probe). -/
theorem c1_tool_validation_after_probe (conf : Config) (args : Args)
    (h1 : args.tool ≠ "all") (h2 : args.tool ∉ conf.tool_list) :
    init_sc conf args 200
      = ([Event.netProbe (es_hostOf conf)],
         Except.error
           { message := unknownToolMsg args.tool args.configName, exitCode := -1 })
    ∧ ({ message := unknownToolMsg args.tool args.configName, exitCode := -1 }
        : FatalExit).exitCode ≠ 0 := by
  refine ⟨?_, by simp⟩
  simp [init_sc, init_ESsession, h1, h2]

/-- C1 witness: the amended claim at the concrete `masscan` invocation. -/
theorem c1_witness :
    init_sc conf_c1 args_c1 200
      = ([Event.netProbe (es_hostOf conf_c1)],
         Except.error
           { message := unknownToolMsg args_c1.tool args_c1.configName, exitCode := -1 })
    ∧ ({ message := unknownToolMsg args_c1.tool args_c1.configName, exitCode := -1 }
        : FatalExit).exitCode ≠ 0 :=
  c1_tool_validation_after_probe conf_c1 args_c1 (by decide) (by decide)

/-- C2 counterexample: with the enabled-tool set `["masscan"]` and the
sentinel `all` requested, validation passes and the dispatcher succeeds,
yet the resulting plan is empty — no entry for the enabled tool
`masscan`, refuting "exactly one QueryDocument entry per enabled tool". -/
theorem c2_counterexample :
    planOf (init_sc conf_c2 args_c2 200) = some []
    ∧ conf_c2.tool_list = ["masscan"] :=
  ⟨rfl, rfl⟩

/-- C2 amended: for every invocation that passes tool-name validation
(and whose liveness probe returned 200), the dispatcher succeeds and its
plan is built over the whole enabled-tool set regardless of the requested
tool; it holds exactly one entry, keyed uniquely, per enabled tool that
the loop supports (`nmap`, `httpx`, `nuclei`) — that tool's builder
output — and no entry for any other name, enabled or not. -/
theorem c2_plan_supported_tools (conf : Config) (args : Args) (t : String)
    (hpass : args.tool = "all" ∨ args.tool ∈ conf.tool_list) :
    planOf (init_sc conf args 200)
      = some (build_plan (es_hostOf conf) args.addr args.start args.end_ args.limit
                conf.tool_list [])
    ∧ ((build_plan (es_hostOf conf) args.addr args.start args.end_ args.limit
          conf.tool_list []).map Prod.fst).Nodup
    ∧ dictLookup (build_plan (es_hostOf conf) args.addr args.start args.end_ args.limit
          conf.tool_list []) t
        = if (t = "nmap" ∨ t = "httpx" ∨ t = "nuclei") ∧ t ∈ conf.tool_list
          then some (supportedBuilder t (es_hostOf conf) args.addr args.start args.end_
                       args.limit)
          else none := by
  have hcond : ¬(args.tool ≠ "all" ∧ args.tool ∉ conf.tool_list) := by
    rcases hpass with h | h
    · intro hc; exact hc.1 h
    · intro hc; exact hc.2 h
  refine ⟨?_, ?_, ?_⟩
  · simp [planOf, init_sc, init_ESsession, hcond]
  · exact build_plan_keys_nodup _ _ _ _ _ _ _ (by simp)
  · rw [build_plan_lookup]
    rfl

/-- C2 witness: the amended claim at a concrete passing invocation
(enabled tools `nmap` and `nuclei`, sentinel `all` requested), observed
at the key `nmap`. -/
theorem c2_witness :
    planOf (init_sc conf_w2 args_w2 200)
      = some (build_plan (es_hostOf conf_w2) args_w2.addr args_w2.start args_w2.end_
                args_w2.limit conf_w2.tool_list [])
    ∧ ((build_plan (es_hostOf conf_w2) args_w2.addr args_w2.start args_w2.end_
          args_w2.limit conf_w2.tool_list []).map Prod.fst).Nodup
    ∧ dictLookup (build_plan (es_hostOf conf_w2) args_w2.addr args_w2.start args_w2.end_
          args_w2.limit conf_w2.tool_list []) "nmap"
        = if ("nmap" = "nmap" ∨ "nmap" = "httpx" ∨ "nmap" = "nuclei")
              ∧ "nmap" ∈ conf_w2.tool_list
          then some (supportedBuilder "nmap" (es_hostOf conf_w2) args_w2.addr args_w2.start
                       args_w2.end_ args_w2.limit)
          else none :=
  c2_plan_supported_tools conf_w2 args_w2 "nmap" (Or.inl rfl)

end SantaSearch
